import Mathlib

/-!
Shallow embedding of the anomalib visualization subsystem
(anomalib/post_processing/visualizer.py) and of the CLI callback
pipeline (anomalib/utils/cli/cli.py).

External image operations (superimpose_anomaly_map, mark_boundaries,
matplotlib grid rendering, cv2 colour conversion, label annotation) are
modelled syntactically as constructors of an `Img` expression type: the
embedding records exactly which external computation is applied to which
arguments, which is what the claims under scrutiny are about.  Numeric
mask arrays are modelled as (flattened) lists of rationals; Python
exceptions are modelled with `Except` over an explicit exception type
whose ValueError payloads record the value interpolated into the
message f-string at the point of raising.
-/

namespace Anomalib

/-- Payloads of the ValueError exceptions raised by the embedded code.
Each constructor records the value that the source interpolates into the
corresponding message f-string. -/
inductive ErrorPayload : Type
  | unknownVisualizationMode (reported : String)
  | unknownTaskType (reported : String)
  | unknownNormalizationType (reported : String)
  | openvinoNncfSimultaneous
  | nncfNotYamlFile (reported : String)
  | zeroSizeArrayMax
  deriving DecidableEq, Repr

/-- Python exceptions that the embedded code can raise. -/
inductive PyException : Type
  | valueError (payload : ErrorPayload)
  | typeError
  | attributeError (missing : String)
  | assertionError
  deriving DecidableEq, Repr

/-- Syntactic model of image values.  Constructors other than `raw` and
`maskImg` record applications of the external image libraries exactly as
the source applies them (argument order and fixed keyword arguments
preserved); `raw` stands for an arbitrary input array and `maskImg`
injects a mask array where the source passes a mask to an image slot. -/
inductive Img : Type
  | raw (id : Nat)
  | maskImg (values : List ℚ)
  | superimposeAnomalyMap (anomaly_map image : Img) (normalize : Bool)
  | markBoundaries (image : Img) (mask : Option (List ℚ))
  | addAnomalousLabel (image : Img) (score : ℚ)
  | addNormalLabel (image : Img) (score : ℚ)
  | times255AsUint8 (image : Img)
  | cvtRGB2BGR (image : Img)
  | gridRender (panels : List (Img × Option String × Option String))

/-- One entry of an `ImageGrid`: the image, the optional title and the
optional colour map, exactly the data `ImageGrid.add_image` stores. -/
abbrev GridEntry : Type := Img × Option String × Option String

/-- Truthiness of a Python string (`if s:`): non-empty strings are truthy. -/
def pyTruthy (s : String) : Bool := s ≠ ""

/-- Truthiness of an optional Python string: `None` and the empty string
are falsy, every other string is truthy. -/
def pyTruthyOpt : Option String → Bool
  | none => false
  | some s => pyTruthy s

/-- Maximum of a non-empty list of rationals (`np.max` on a non-empty
array); the head seeds the fold as numpy reduces over all elements. -/
def listMax : List ℚ → ℚ
  | [] => 0
  | h :: t => t.foldl max h

/-- Model of `np.max` on a mask array: a zero-size array raises a
ValueError, otherwise the maximum element is returned. -/
def npMax : List ℚ → Except PyException ℚ
  | [] => .error (.valueError .zeroSizeArrayMax)
  | h :: t => .ok (t.foldl max h)

/-- Model of evaluating `np.max(m) <= 1.0` when `m` may be `None`
(source line 55 applies `np.max` to `self.pred_mask` without a `None`
guard): `np.max(None)` yields `None` and the comparison `None <= 1.0`
raises a TypeError. -/
def npMaxOfOpt : Option (List ℚ) → Except PyException ℚ
  | none => .error .typeError
  | some m => npMax m

/-- Collection of data needed to visualize the predictions for an image
(dataclass `ImageResult`).  The two `init=False` fields are modelled
with `Option`: `heat_map` is always assigned by `__post_init__`, while
`segmentations` is `none` exactly when `__post_init__` leaves the
attribute unset. -/
structure ImageResult : Type where
  image : Img
  pred_score : ℚ
  pred_label : String
  anomaly_map : Img
  gt_mask : Option (List ℚ)
  pred_mask : Option (List ℚ)
  heat_map : Img
  segmentations : Option Img

/-- First branch of `ImageResult.__post_init__` (lines 52-54): when a
predicted mask is given and its maximum is at most 1.0, scale it by 255
and mark its boundaries on the original image; returns the (possibly
scaled) predicted mask together with the `segmentations` attribute. -/
def predMaskStep (image : Img) :
    Option (List ℚ) → Except PyException (Option (List ℚ) × Option Img)
  | some m =>
    match npMax m with
    | .error e => .error e
    | .ok mx =>
      if mx ≤ 1 then
        .ok (some (m.map (fun v => v * 255)),
          some (Img.markBoundaries image (some (m.map (fun v => v * 255)))))
      else
        .ok (some m, none)
  | none => .ok (none, none)

/-- Second branch of `ImageResult.__post_init__` (lines 55-56): when a
ground-truth mask is given, the range that is inspected is that of
`self.pred_mask` — as it stands after the first branch may have scaled
it — and the ground-truth mask is scaled by 255 when that maximum is at
most 1.0. -/
def gtMaskStep (gt_mask pred_mask : Option (List ℚ)) :
    Except PyException (Option (List ℚ)) :=
  match gt_mask with
  | some g =>
    match npMaxOfOpt pred_mask with
    | .error e => .error e
    | .ok mx => if mx ≤ 1 then .ok (some (g.map (fun v => v * 255))) else .ok (some g)
  | none => .ok none

/-- Model of constructing an `ImageResult`: the dataclass `__init__`
followed by `__post_init__` (lines 49-56).  The heat map is the anomaly
map superimposed on the image with `normalize=False`; then the two mask
branches run in order, the second seeing the predicted mask as mutated
by the first. -/
def ImageResult.construct (image : Img) (pred_score : ℚ) (pred_label : String)
    (anomaly_map : Img) (gt_mask : Option (List ℚ) := none)
    (pred_mask : Option (List ℚ) := none) : Except PyException ImageResult :=
  let heat_map := Img.superimposeAnomalyMap anomaly_map image false
  match predMaskStep image pred_mask with
  | .error e => .error e
  | .ok (pred_mask2, segmentations) =>
    match gtMaskStep gt_mask pred_mask2 with
    | .error e => .error e
    | .ok gt_mask2 =>
      .ok { image := image, pred_score := pred_score, pred_label := pred_label,
            anomaly_map := anomaly_map, gt_mask := gt_mask2, pred_mask := pred_mask2,
            heat_map := heat_map, segmentations := segmentations }

/-- Class that handles the logic of composing the visualizations: holds
the mode and task fixed at construction. -/
structure Visualizer : Type where
  mode : String
  task : String

/-- Model of `Visualizer.__init__` (lines 67-73): the mode is validated
against full/simple and the task against classification/segmentation;
note that the task-validation message interpolates `mode` (source line
72 writes `{mode}` in the f-string). -/
def Visualizer.init (mode task : String) : Except PyException Visualizer :=
  if mode ∉ (["full", "simple"] : List String) then
    .error (.valueError (.unknownVisualizationMode mode))
  else if task ∉ (["classification", "segmentation"] : List String) then
    .error (.valueError (.unknownTaskType mode))
  else
    .ok { mode := mode, task := task }

/-- Model of `ImageGrid.generate` (lines 214-237): render the entries in
a single row (subplot layout, titles, rasterization) and convert the
result from RGB to BGR. -/
def ImageGrid.generate (images : List GridEntry) : Img :=
  Img.cvtRGB2BGR (Img.gridRender images)

/-- Model of `Visualizer._visualize_full` (lines 110-140): for the
segmentation task, assert a predicted mask is present, add the original
image, the ground-truth mask when present, the heat map, the predicted
mask and the `segmentations` attribute (an AttributeError when that
attribute was never assigned); for the classification task, add the
original image and the label-annotated heat map. -/
def Visualizer.visualize_full (v : Visualizer) (r : ImageResult) :
    Except PyException Img :=
  if v.task = "segmentation" then
    match r.pred_mask with
    | none => .error .assertionError
    | some pm =>
      let entries : List GridEntry := [(r.image, some "Image", none)]
      let entries := entries ++
        (match r.gt_mask with
         | some g => [(Img.maskImg g, some "Ground Truth", some "gray")]
         | none => [])
      let entries := entries ++ [(r.heat_map, some "Predicted Heat Map", none)]
      let entries := entries ++ [(Img.maskImg pm, some "Predicted Mask", some "gray")]
      match r.segmentations with
      | none => .error (.attributeError "segmentations")
      | some sg => .ok (ImageGrid.generate (entries ++ [(sg, some "Segmentation Result", none)]))
  else if v.task = "classification" then
    let entries : List GridEntry := [(r.image, some "Image", none)]
    let image_classified :=
      if pyTruthy r.pred_label then Img.addAnomalousLabel r.heat_map r.pred_score
      else Img.addNormalLabel r.heat_map (1 - r.pred_score)
    .ok (ImageGrid.generate (entries ++ [(image_classified, some "Prediction", none)]))
  else
    .ok (ImageGrid.generate [])

/-- Model of `Visualizer._visualize_simple` (lines 142-164): for the
segmentation task, mark the predicted mask boundaries on the heat map,
scale to the 8-bit unsigned range and convert RGB to BGR; for the
classification task, convert the label-annotated heat map to BGR. -/
def Visualizer.visualize_simple (v : Visualizer) (r : ImageResult) :
    Except PyException Img :=
  if v.task = "segmentation" then
    .ok (Img.cvtRGB2BGR (Img.times255AsUint8
      (Img.markBoundaries r.heat_map r.pred_mask)))
  else if v.task = "classification" then
    let image_classified :=
      if pyTruthy r.pred_label then Img.addAnomalousLabel r.heat_map r.pred_score
      else Img.addNormalLabel r.heat_map (1 - r.pred_score)
    .ok (Img.cvtRGB2BGR image_classified)
  else
    .error (.valueError (.unknownTaskType v.task))

/-- Model of `Visualizer.visualize_image` (lines 95-108): dispatch on
the stored mode. -/
def Visualizer.visualize_image (v : Visualizer) (r : ImageResult) :
    Except PyException Img :=
  if v.mode = "full" then v.visualize_full r
  else if v.mode = "simple" then v.visualize_simple r
  else .error (.valueError (.unknownVisualizationMode v.mode))

/-- A callback entry coming from the trainer configuration file: a class
path together with the EarlyStopping-relevant init arguments. -/
structure ConfigCallback : Type where
  class_path : String
  init_monitor : Option String
  init_mode : String
  deriving DecidableEq, Repr

/-- Callbacks that `AnomalibCLI.__set_callbacks` can place in the
pipeline. -/
inductive Callback : Type
  | fromConfig (cb : ConfigCallback)
  | modelCheckpoint (monitor : Option String) (mode : String)
  | loadModel (ckpt_path : String)
  | timer
  | minMaxNormalization
  | cdfNormalization
  | openvinoExport
  | nncfCompression (cfg_path : String)
  deriving DecidableEq, Repr

/-- The slice of the CLI configuration that `__set_callbacks` reads.
`nncfIsFile` models the environment fact `os.path.isfile(config.nncf)`. -/
structure CLIConfig : Type where
  trainerCallbacks : Option (List ConfigCallback)
  resumeFromCheckpoint : Option String
  normalizationMethod : Option String
  openvino : Bool
  nncf : Option String
  nncfIsFile : Bool
  deriving DecidableEq, Repr

/-- Last segment of a dotted class path (Python
`class_path.split(".")[-1]`). -/
def classBaseName (s : String) : String := (s.splitOn ".").getLastD s

/-- Lines 163-176 of `__set_callbacks`: the callbacks defined in the
trainer configuration file, kept in the pipeline list verbatim (empty
when the configuration holds `None`). -/
def configuredCallbacks (config : CLIConfig) : List Callback :=
  match config.trainerCallbacks with
  | some cbs => cbs.map Callback.fromConfig
  | none => []

/-- Lines 176-179 of `__set_callbacks`: monitor and mode for the model
checkpoint, taken from the EarlyStopping entry of the configured
callbacks when present (the Python dict comprehension keeps the last
entry per key) and defaulting to no monitor with mode "max". -/
def earlyStoppingMonitorMode (config : CLIConfig) : Option String × String :=
  match config.trainerCallbacks with
  | some cbs =>
    match (cbs.filter fun c => classBaseName c.class_path = "EarlyStopping").getLast? with
    | some c => (c.init_monitor, c.init_mode)
    | none => (none, "max")
  | none => (none, "max")

/-- Lines 190-193 of `__set_callbacks`: the load-model callback, added
exactly when a checkpoint to resume from is configured. -/
def resumeCallbacks (config : CLIConfig) : List Callback :=
  if pyTruthyOpt config.resumeFromCheckpoint then
    [Callback.loadModel (config.resumeFromCheckpoint.getD "")]
  else []

/-- Lines 163-196 of `__set_callbacks`: the configured trainer
callbacks, then the model checkpoint, the load-model callback when
resuming, and the timer. -/
def baseCallbacks (config : CLIConfig) : List Callback :=
  configuredCallbacks config ++
    [Callback.modelCheckpoint (earlyStoppingMonitorMode config).1
      (earlyStoppingMonitorMode config).2] ++
    resumeCallbacks config ++ [Callback.timer]

/-- Lines 200-210 of `__set_callbacks`: the normalization block.  A
falsy method (None or empty) adds nothing; `min_max` and `cdf` select
their callbacks; any other truthy value raises a ValueError naming the
method. -/
def normalizationCallbacks (method : Option String) :
    Except PyException (List Callback) :=
  match method with
  | some m =>
    if ¬ pyTruthy m then .ok []
    else if m = "min_max" then .ok [Callback.minMaxNormalization]
    else if m = "cdf" then .ok [Callback.cdfNormalization]
    else .error (.valueError (.unknownNormalizationType m))
  | none => .ok []

/-- Lines 216-228 of `__set_callbacks`: the OpenVINO export callback,
added exactly when the flag is set. -/
def openvinoCallbackList (config : CLIConfig) : List Callback :=
  if config.openvino then [Callback.openvinoExport] else []

/-- Lines 212-241 of `__set_callbacks`: the export block.  OpenVINO and
NNCF simultaneously is a ValueError; otherwise the OpenVINO callback is
added when the flag is set, and the NNCF callback when the path is
truthy and names an existing `.yaml` file (any other truthy path is a
ValueError naming the path). -/
def exportCallbacks (config : CLIConfig) : Except PyException (List Callback) :=
  if config.openvino && pyTruthyOpt config.nncf then
    .error (.valueError .openvinoNncfSimultaneous)
  else
    match config.nncf with
    | some p =>
      if pyTruthy p then
        if config.nncfIsFile && p.endsWith ".yaml" then
          .ok (openvinoCallbackList config ++ [Callback.nncfCompression p])
        else .error (.valueError (.nncfNotYamlFile p))
      else .ok (openvinoCallbackList config)
    | none => .ok (openvinoCallbackList config)

/-- Model of `AnomalibCLI.__set_callbacks` (lines 158-243): the base
callbacks, then the normalization block, then the export block, each
block raising before any later block runs. -/
def setCallbacks (config : CLIConfig) : Except PyException (List Callback) :=
  match normalizationCallbacks config.normalizationMethod with
  | .error e => .error e
  | .ok normCbs =>
    match exportCallbacks config with
    | .error e => .error e
    | .ok exportCbs => .ok (baseCallbacks config ++ normCbs ++ exportCbs)

/-- C1: claimed — construction rescales each provided mask whose values
lie in [0,1] into the 0-255 domain and leaves masks already in that
domain untouched, the ground-truth decision depending only on the
ground-truth mask's own range.  The code instead inspects the predicted
mask's range (after it has itself been scaled): at the input below both
masks are the binary mask [0, 1], yet only the predicted mask is
rescaled — the ground-truth mask comes out untouched as [0, 1] because
the already-scaled predicted mask has maximum 255. -/
theorem C1_gt_rescale_inspects_pred_mask :
    ImageResult.construct (Img.raw 0) 0 "1" (Img.raw 1)
      (some [0, 1]) (some [0, 1]) =
    .ok { image := Img.raw 0, pred_score := 0, pred_label := "1",
          anomaly_map := Img.raw 1,
          gt_mask := some [0, 1],
          pred_mask := some [0, 255],
          heat_map := Img.superimposeAnomalyMap (Img.raw 1) (Img.raw 0) false,
          segmentations := some (Img.markBoundaries (Img.raw 0) (some [0, 255])) } := by
  norm_num [ImageResult.construct, predMaskStep, npMax, gtMaskStep, npMaxOfOpt]

/-- C2: constructing a Visualizer with a mode outside full/simple and a
task outside classification/segmentation raises a ValueError, while
every supported mode/task pair constructs successfully with the stored
mode and task equal to the arguments (the embedding's operations are
pure functions of the visualizer, so the stored fields are never
mutated afterwards). -/
theorem C2_visualizer_init_validation :
    (∀ mode task : String, mode ∉ (["full", "simple"] : List String) →
      task ∉ (["classification", "segmentation"] : List String) →
      Visualizer.init mode task = .error (.valueError (.unknownVisualizationMode mode))) ∧
    (∀ mode task : String, mode ∈ (["full", "simple"] : List String) →
      task ∈ (["classification", "segmentation"] : List String) →
      Visualizer.init mode task = .ok { mode := mode, task := task }) := by
  constructor
  · intro mode task h1 _
    simp [Visualizer.init, h1]
  · intro mode task h1 h2
    simp [Visualizer.init, h1, h2]

/-- Witness for C2 at the spec's example values: mode "fancy" with task
"regression" fails, and the supported pair full/segmentation succeeds. -/
theorem C2_visualizer_init_validation_witness :
    Visualizer.init "fancy" "regression" =
      .error (.valueError (.unknownVisualizationMode "fancy")) ∧
    Visualizer.init "full" "segmentation" =
      .ok { mode := "full", task := "segmentation" } :=
  ⟨C2_visualizer_init_validation.1 "fancy" "regression" (by decide) (by decide),
   C2_visualizer_init_validation.2 "full" "segmentation" (by decide) (by decide)⟩

/-- C10: when the mode is valid and the task is not, the ValueError
reports the mode argument in the offending-value slot of the message,
not the task argument. -/
theorem C10_task_error_reports_mode :
    ∀ mode task : String, mode ∈ (["full", "simple"] : List String) →
      task ∉ (["classification", "segmentation"] : List String) →
      Visualizer.init mode task = .error (.valueError (.unknownTaskType mode)) := by
  intro mode task h1 h2
  simp [Visualizer.init, h1, h2]

/-- Witness for C10: valid mode "full" with unsupported task
"regression" raises the task error whose reported value is "full". -/
theorem C10_task_error_reports_mode_witness :
    Visualizer.init "full" "regression" =
      .error (.valueError (.unknownTaskType "full")) :=
  C10_task_error_reports_mode "full" "regression" (by decide) (by decide)

/-- C9: constructing an ImageResult with a ground-truth mask but no
predicted mask raises during construction, because the ground-truth
branch evaluates `np.max` of the absent predicted mask and the ensuing
comparison with 1.0 raises a TypeError. -/
theorem C9_gt_without_pred_raises :
    ∀ (img : Img) (s : ℚ) (lbl : String) (amap : Img) (g : List ℚ),
      ImageResult.construct img s lbl amap (some g) none = .error .typeError := by
  intro img s lbl amap g
  rfl

/-- C3: for the visualizer configured simple/segmentation (which
construction accepts, storing exactly those values), visualizing any
image result returns exactly the boundary computation over the heat map
and the stored predicted mask, scaled to the 8-bit range and converted
from RGB to BGR; the output is a function of the inputs alone, hence
deterministic for fixed inputs. -/
theorem C3_simple_segmentation_output :
    Visualizer.init "simple" "segmentation" =
      .ok { mode := "simple", task := "segmentation" } ∧
    ∀ r : ImageResult,
      Visualizer.visualize_image { mode := "simple", task := "segmentation" } r =
        .ok (Img.cvtRGB2BGR (Img.times255AsUint8
          (Img.markBoundaries r.heat_map r.pred_mask))) := by
  exact ⟨rfl, fun r => rfl⟩

/-- C4: for the visualizer configured full/classification (which
construction accepts, storing exactly those values), visualizing any
image result whose predicted label is truthy yields a grid of exactly
two panels: the original image first, then the heat map annotated with
the anomalous label and the prediction score. -/
theorem C4_full_classification_two_panels :
    Visualizer.init "full" "classification" =
      .ok { mode := "full", task := "classification" } ∧
    ∀ r : ImageResult, pyTruthy r.pred_label = true →
      Visualizer.visualize_image { mode := "full", task := "classification" } r =
        .ok (ImageGrid.generate
          [(r.image, some "Image", none),
           (Img.addAnomalousLabel r.heat_map r.pred_score, some "Prediction", none)]) := by
  refine ⟨rfl, fun r h => ?_⟩
  simp [Visualizer.visualize_image, Visualizer.visualize_full, h]

/-- Witness for C4 on a concrete result with the truthy label "1". -/
theorem C4_full_classification_two_panels_witness :
    Visualizer.visualize_image { mode := "full", task := "classification" }
      { image := Img.raw 0, pred_score := 1, pred_label := "1",
        anomaly_map := Img.raw 1, gt_mask := none, pred_mask := none,
        heat_map := Img.superimposeAnomalyMap (Img.raw 1) (Img.raw 0) false,
        segmentations := none } =
    .ok (ImageGrid.generate
      [(Img.raw 0, some "Image", none),
       (Img.addAnomalousLabel (Img.superimposeAnomalyMap (Img.raw 1) (Img.raw 0) false) 1,
        some "Prediction", none)]) :=
  C4_full_classification_two_panels.2
    { image := Img.raw 0, pred_score := 1, pred_label := "1",
      anomaly_map := Img.raw 1, gt_mask := none, pred_mask := none,
      heat_map := Img.superimposeAnomalyMap (Img.raw 1) (Img.raw 0) false,
      segmentations := none } (by decide)

/-- C5 counterexample: the claim quantifies over every ImageResult with
a non-None predicted mask, but a result constructed from a predicted
mask whose values exceed 1.0 (here the mask [2]) has no `segmentations`
attribute, so full/segmentation visualization raises an AttributeError
instead of laying out any panels. -/
theorem C5_full_segmentation_counterexample :
    ImageResult.construct (Img.raw 0) 0 "1" (Img.raw 1) none (some [2]) =
      .ok { image := Img.raw 0, pred_score := 0, pred_label := "1",
            anomaly_map := Img.raw 1, gt_mask := none, pred_mask := some [2],
            heat_map := Img.superimposeAnomalyMap (Img.raw 1) (Img.raw 0) false,
            segmentations := none } ∧
    Visualizer.visualize_image { mode := "full", task := "segmentation" }
      { image := Img.raw 0, pred_score := 0, pred_label := "1",
        anomaly_map := Img.raw 1, gt_mask := none, pred_mask := some [2],
        heat_map := Img.superimposeAnomalyMap (Img.raw 1) (Img.raw 0) false,
        segmentations := none } =
      .error (.attributeError "segmentations") := by
  constructor
  · norm_num [ImageResult.construct, predMaskStep, npMax, gtMaskStep, npMaxOfOpt]
  · rfl

/-- C5 amended: for the visualizer configured full/segmentation and
every ImageResult constructed with a non-None predicted mask whose
maximum value is at most 1.0 (so that the segmentations attribute is
assigned), visualization lays the sub-images out left to right as
original image, ground-truth mask if and only if present, heat map,
predicted mask, boundary overlay — five panels with a ground truth and
four without. -/
theorem C5_full_segmentation_layout
    (img : Img) (s : ℚ) (lbl : String) (amap : Img) (gt : Option (List ℚ))
    (pm : List ℚ) (r : ImageResult)
    (hne : pm ≠ []) (hmax : listMax pm ≤ 1)
    (hr : ImageResult.construct img s lbl amap gt (some pm) = .ok r) :
    ∃ entries : List GridEntry,
      Visualizer.visualize_image { mode := "full", task := "segmentation" } r =
        .ok (ImageGrid.generate entries) ∧
      entries =
        [(r.image, some "Image", none)] ++
        (match r.gt_mask with
         | some g => [(Img.maskImg g, some "Ground Truth", some "gray")]
         | none => []) ++
        [(r.heat_map, some "Predicted Heat Map", none),
         (Img.maskImg (pm.map fun v => v * 255), some "Predicted Mask", some "gray"),
         (Img.markBoundaries img (some (pm.map fun v => v * 255)),
          some "Segmentation Result", none)] ∧
      entries.length = if gt.isSome then 5 else 4 := by
  obtain ⟨h1, t1, rfl⟩ : ∃ h1 t1, pm = h1 :: t1 := by
    cases pm with
    | nil => exact absurd rfl hne
    | cons a l => exact ⟨a, l, rfl⟩
  have hmax' : List.foldl max h1 t1 ≤ 1 := hmax
  have hps : predMaskStep img (some (h1 :: t1)) =
      .ok (some ((h1 :: t1).map fun v => v * 255),
        some (Img.markBoundaries img (some ((h1 :: t1).map fun v => v * 255)))) := by
    simp [predMaskStep, npMax, hmax']
  rw [ImageResult.construct, hps] at hr
  cases gt with
  | none =>
    simp only [gtMaskStep, Except.ok.injEq] at hr
    subst hr
    exact ⟨_, rfl, rfl, rfl⟩
  | some g =>
    simp only [gtMaskStep, npMaxOfOpt, npMax, List.map_cons] at hr
    by_cases hc : List.foldl max (h1 * 255) (t1.map fun v => v * 255) ≤ 1
    · rw [if_pos hc] at hr
      simp only [Except.ok.injEq] at hr
      subst hr
      exact ⟨_, rfl, rfl, rfl⟩
    · rw [if_neg hc] at hr
      simp only [Except.ok.injEq] at hr
      subst hr
      exact ⟨_, rfl, rfl, rfl⟩

/-- Witness for C5 on the binary predicted mask [1] with no ground
truth: the grid holds exactly the four panels in order. -/
theorem C5_full_segmentation_layout_witness :
    ∃ entries : List GridEntry,
      Visualizer.visualize_image { mode := "full", task := "segmentation" }
        { image := Img.raw 2, pred_score := 0, pred_label := "1",
          anomaly_map := Img.raw 3, gt_mask := none,
          pred_mask := some ([1].map fun v => v * 255),
          heat_map := Img.superimposeAnomalyMap (Img.raw 3) (Img.raw 2) false,
          segmentations := some (Img.markBoundaries (Img.raw 2)
            (some ([1].map fun v => v * 255))) } =
        .ok (ImageGrid.generate entries) ∧
      entries =
        [(Img.raw 2, some "Image", none)] ++
        [] ++
        [(Img.superimposeAnomalyMap (Img.raw 3) (Img.raw 2) false,
          some "Predicted Heat Map", none),
         (Img.maskImg (([1] : List ℚ).map fun v => v * 255),
          some "Predicted Mask", some "gray"),
         (Img.markBoundaries (Img.raw 2) (some (([1] : List ℚ).map fun v => v * 255)),
          some "Segmentation Result", none)] ∧
      entries.length = if (none : Option (List ℚ)).isSome then 5 else 4 :=
  C5_full_segmentation_layout (Img.raw 2) 0 "1" (Img.raw 3) none [1] _
    (by decide) (by norm_num [listMax]) rfl

/-- C8 counterexample: the claim asserts an attribute error also for
the predicted-mask-absent case, but there the assertion at the start of
the full/segmentation branch fires first: the constructed result below
has no predicted mask and visualization fails with an AssertionError,
which differs from the claimed AttributeError. -/
theorem C8_segmentations_counterexample :
    ImageResult.construct (Img.raw 6) 0 "0" (Img.raw 7) none none =
      .ok { image := Img.raw 6, pred_score := 0, pred_label := "0",
            anomaly_map := Img.raw 7, gt_mask := none, pred_mask := none,
            heat_map := Img.superimposeAnomalyMap (Img.raw 7) (Img.raw 6) false,
            segmentations := none } ∧
    Visualizer.visualize_image { mode := "full", task := "segmentation" }
      { image := Img.raw 6, pred_score := 0, pred_label := "0",
        anomaly_map := Img.raw 7, gt_mask := none, pred_mask := none,
        heat_map := Img.superimposeAnomalyMap (Img.raw 7) (Img.raw 6) false,
        segmentations := none } = .error .assertionError ∧
    PyException.assertionError ≠ PyException.attributeError "segmentations" :=
  ⟨rfl, rfl, by decide⟩

/-- C8 amended: the segmentations attribute is assigned during
construction exactly when a predicted mask is provided whose maximum is
at most 1.0; a constructed result without a predicted mask makes
full/segmentation visualization fail with an assertion error, and one
whose predicted mask exceeds 1.0 makes it fail with an attribute error
on `segmentations` — in neither case is an image returned. -/
theorem C8_segmentations_assignment :
    (∀ (img : Img) (s : ℚ) (lbl : String) (amap : Img)
        (gt pmOpt : Option (List ℚ)) (r : ImageResult),
        ImageResult.construct img s lbl amap gt pmOpt = .ok r →
        (r.segmentations.isSome ↔ ∃ pm, pmOpt = some pm ∧ listMax pm ≤ 1)) ∧
    (∀ (img : Img) (s : ℚ) (lbl : String) (amap : Img)
        (gt : Option (List ℚ)) (r : ImageResult),
        ImageResult.construct img s lbl amap gt none = .ok r →
        Visualizer.visualize_image { mode := "full", task := "segmentation" } r =
          .error .assertionError) ∧
    (∀ (img : Img) (s : ℚ) (lbl : String) (amap : Img)
        (gt : Option (List ℚ)) (pm : List ℚ) (r : ImageResult),
        ¬ listMax pm ≤ 1 →
        ImageResult.construct img s lbl amap gt (some pm) = .ok r →
        Visualizer.visualize_image { mode := "full", task := "segmentation" } r =
          .error (.attributeError "segmentations")) := by
  refine ⟨?_, ?_, ?_⟩
  · intro img s lbl amap gt pmOpt r hr
    cases pmOpt with
    | none =>
      cases gt with
      | none =>
        simp only [ImageResult.construct, predMaskStep, gtMaskStep,
          Except.ok.injEq] at hr
        subst hr
        simp
      | some g =>
        simp [ImageResult.construct, predMaskStep, gtMaskStep, npMaxOfOpt] at hr
    | some pm =>
      cases pm with
      | nil =>
        simp [ImageResult.construct, predMaskStep, npMax] at hr
      | cons h1 t1 =>
        by_cases hc : List.foldl max h1 t1 ≤ 1
        · have hps : predMaskStep img (some (h1 :: t1)) =
              .ok (some ((h1 :: t1).map fun v => v * 255),
                some (Img.markBoundaries img (some ((h1 :: t1).map fun v => v * 255)))) := by
            simp [predMaskStep, npMax, hc]
          rw [ImageResult.construct, hps] at hr
          cases gt with
          | none =>
            simp only [gtMaskStep, Except.ok.injEq] at hr
            subst hr
            simp only [Option.isSome_some, true_iff]
            exact ⟨h1 :: t1, rfl, hc⟩
          | some g =>
            simp only [gtMaskStep, npMaxOfOpt, npMax, List.map_cons] at hr
            by_cases hc2 : List.foldl max (h1 * 255) (t1.map fun v => v * 255) ≤ 1
            · rw [if_pos hc2] at hr
              simp only [Except.ok.injEq] at hr
              subst hr
              simp only [Option.isSome_some, true_iff]
              exact ⟨h1 :: t1, rfl, hc⟩
            · rw [if_neg hc2] at hr
              simp only [Except.ok.injEq] at hr
              subst hr
              simp only [Option.isSome_some, true_iff]
              exact ⟨h1 :: t1, rfl, hc⟩
        · have hps : predMaskStep img (some (h1 :: t1)) = .ok (some (h1 :: t1), none) := by
            simp [predMaskStep, npMax, hc]
          rw [ImageResult.construct, hps] at hr
          cases gt with
          | none =>
            simp only [gtMaskStep, Except.ok.injEq] at hr
            subst hr
            simp only [Option.isSome_none, Bool.false_eq_true, false_iff]
            rintro ⟨pm, hpm, hle⟩
            cases hpm
            exact hc hle
          | some g =>
            simp only [gtMaskStep, npMaxOfOpt, npMax] at hr
            rw [if_neg hc] at hr
            simp only [Except.ok.injEq] at hr
            subst hr
            simp only [Option.isSome_none, Bool.false_eq_true, false_iff]
            rintro ⟨pm, hpm, hle⟩
            cases hpm
            exact hc hle
  · intro img s lbl amap gt r hr
    cases gt with
    | none =>
      simp only [ImageResult.construct, predMaskStep, gtMaskStep,
        Except.ok.injEq] at hr
      subst hr
      rfl
    | some g =>
      simp [ImageResult.construct, predMaskStep, gtMaskStep, npMaxOfOpt] at hr
  · intro img s lbl amap gt pm r hc hr
    obtain ⟨h1, t1, rfl⟩ : ∃ h1 t1, pm = h1 :: t1 := by
      cases pm with
      | nil => exact absurd (by norm_num [listMax]) hc
      | cons a l => exact ⟨a, l, rfl⟩
    have hc' : ¬ List.foldl max h1 t1 ≤ 1 := hc
    have hps : predMaskStep img (some (h1 :: t1)) = .ok (some (h1 :: t1), none) := by
      simp [predMaskStep, npMax, hc']
    rw [ImageResult.construct, hps] at hr
    cases gt with
    | none =>
      simp only [gtMaskStep, Except.ok.injEq] at hr
      subst hr
      rfl
    | some g =>
      simp only [gtMaskStep, npMaxOfOpt, npMax] at hr
      rw [if_neg hc'] at hr
      simp only [Except.ok.injEq] at hr
      subst hr
      rfl

/-- Witness for C8: the three conjuncts applied on concrete results —
a binary mask gets segmentations assigned, an absent mask gives an
assertion error, and an out-of-range mask gives an attribute error. -/
theorem C8_segmentations_assignment_witness :
    (({ image := Img.raw 4, pred_score := 0, pred_label := "0",
        anomaly_map := Img.raw 5, gt_mask := none,
        pred_mask := some ([1].map fun v => v * 255),
        heat_map := Img.superimposeAnomalyMap (Img.raw 5) (Img.raw 4) false,
        segmentations := some (Img.markBoundaries (Img.raw 4)
          (some ([1].map fun v => v * 255))) } : ImageResult).segmentations.isSome ↔
      ∃ pm, (some [1] : Option (List ℚ)) = some pm ∧ listMax pm ≤ 1) ∧
    Visualizer.visualize_image { mode := "full", task := "segmentation" }
      { image := Img.raw 4, pred_score := 0, pred_label := "0",
        anomaly_map := Img.raw 5, gt_mask := none, pred_mask := none,
        heat_map := Img.superimposeAnomalyMap (Img.raw 5) (Img.raw 4) false,
        segmentations := none } = .error .assertionError ∧
    Visualizer.visualize_image { mode := "full", task := "segmentation" }
      { image := Img.raw 4, pred_score := 0, pred_label := "0",
        anomaly_map := Img.raw 5, gt_mask := none, pred_mask := some [3],
        heat_map := Img.superimposeAnomalyMap (Img.raw 5) (Img.raw 4) false,
        segmentations := none } = .error (.attributeError "segmentations") :=
  ⟨C8_segmentations_assignment.1 (Img.raw 4) 0 "0" (Img.raw 5) none (some [1]) _
    (by norm_num [ImageResult.construct, predMaskStep, npMax, gtMaskStep]),
   C8_segmentations_assignment.2.1 (Img.raw 4) 0 "0" (Img.raw 5) none _ rfl,
   C8_segmentations_assignment.2.2 (Img.raw 4) 0 "0" (Img.raw 5) none [3] _
    (by norm_num [listMax])
    (by norm_num [ImageResult.construct, predMaskStep, npMax, gtMaskStep])⟩

/-- Every error escaping the normalization block is a ValueError naming
the unknown normalization method. -/
theorem normalizationCallbacks_error_shape (m : Option String) (e : PyException)
    (h : normalizationCallbacks m = .error e) :
    ∃ s, e = .valueError (.unknownNormalizationType s) := by
  cases m with
  | none => simp [normalizationCallbacks] at h
  | some s =>
    simp only [normalizationCallbacks] at h
    split at h
    · simp at h
    · split at h
      · simp at h
      · split at h
        · simp at h
        · exact ⟨s, (Except.error.inj h).symm⟩

/-- When the OpenVINO flag and a truthy NNCF path are not both present,
every error escaping the export block is the NNCF-path ValueError. -/
theorem exportCallbacks_error_shape (config : CLIConfig) (e : PyException)
    (hno : ¬(config.openvino = true ∧ pyTruthyOpt config.nncf = true))
    (h : exportCallbacks config = .error e) :
    ∃ p, e = .valueError (.nncfNotYamlFile p) := by
  unfold exportCallbacks at h
  split at h
  · rename_i hb
    rw [Bool.and_eq_true] at hb
    exact absurd hb hno
  · split at h
    · rename_i p hp
      split at h
      · split at h
        · simp at h
        · exact ⟨p, (Except.error.inj h).symm⟩
      · simp at h
    · simp at h

/-- All members of a successful export block are export callbacks. -/
theorem exportCallbacks_mem_shape (config : CLIConfig) (l : List Callback)
    (h : exportCallbacks config = .ok l) (c : Callback) (hc : c ∈ l) :
    c = Callback.openvinoExport ∨ ∃ p, c = Callback.nncfCompression p := by
  have hov : ∀ c : Callback, c ∈ openvinoCallbackList config →
      c = Callback.openvinoExport := by
    intro c hc
    unfold openvinoCallbackList at hc
    split at hc
    · simpa using hc
    · simp at hc
  unfold exportCallbacks at h
  split at h
  · simp at h
  · split at h
    · rename_i p hp
      split at h
      · split at h
        · injection h with h
          subst h
          rcases List.mem_append.mp hc with hm | hm
          · exact .inl (hov _ hm)
          · simp only [List.mem_singleton] at hm
            exact .inr ⟨p, hm⟩
        · simp at h
      · injection h with h
        subst h
        exact .inl (hov _ hc)
    · injection h with h
      subst h
      exact .inl (hov _ hc)

/-- The normalization callbacks never appear in the base block. -/
theorem norm_not_mem_baseCallbacks (config : CLIConfig) :
    Callback.minMaxNormalization ∉ baseCallbacks config ∧
    Callback.cdfNormalization ∉ baseCallbacks config := by
  constructor <;>
  · intro h
    simp only [baseCallbacks, List.mem_append] at h
    rcases h with ((h | h) | h) | h
    · unfold configuredCallbacks at h
      split at h
      · simp only [List.mem_map] at h
        obtain ⟨cb, -, hcb⟩ := h
        cases hcb
      · simp at h
    · simp at h
    · unfold resumeCallbacks at h
      split at h
      · simp at h
      · simp at h
    · simp at h

/-- Membership of the two normalization callbacks in a successful
normalization block characterises the configured method. -/
theorem normalizationCallbacks_ok_iff (m : Option String) (l : List Callback)
    (h : normalizationCallbacks m = .ok l) :
    (Callback.minMaxNormalization ∈ l ↔ m = some "min_max") ∧
    (Callback.cdfNormalization ∈ l ↔ m = some "cdf") := by
  cases m with
  | none =>
    simp only [normalizationCallbacks, Except.ok.injEq] at h
    subst h
    simp
  | some s =>
    simp only [normalizationCallbacks] at h
    split at h
    · rename_i hfalsy
      have hs : s = "" := by simpa [pyTruthy] using hfalsy
      subst hs
      injection h with h
      subst h
      decide
    · split at h
      · rename_i hmm
        subst hmm
        injection h with h
        subst h
        decide
      · split at h
        · rename_i hcdf
          subst hcdf
          injection h with h
          subst h
          decide
        · simp at h

/-- C6: whenever the OpenVINO export flag and a truthy NNCF config path
are both present, assembling the callback pipeline raises a ValueError
(during configuration, before any training step); when at most one of
the two is present, the pipeline never fails with the simultaneity
error raised by that mutual-exclusion check. -/
theorem C6_openvino_nncf_exclusive :
    (∀ config : CLIConfig, config.openvino = true → pyTruthyOpt config.nncf = true →
      ∃ p, setCallbacks config = .error (.valueError p)) ∧
    (∀ config : CLIConfig, ¬(config.openvino = true ∧ pyTruthyOpt config.nncf = true) →
      setCallbacks config ≠ .error (.valueError .openvinoNncfSimultaneous)) := by
  constructor
  · intro config h1 h2
    cases hn : normalizationCallbacks config.normalizationMethod with
    | error e =>
      obtain ⟨s, rfl⟩ := normalizationCallbacks_error_shape _ _ hn
      exact ⟨.unknownNormalizationType s, by simp [setCallbacks, hn]⟩
    | ok l =>
      refine ⟨.openvinoNncfSimultaneous, ?_⟩
      have hexp : exportCallbacks config = .error (.valueError .openvinoNncfSimultaneous) := by
        unfold exportCallbacks
        rw [h1, h2]
        simp
      simp [setCallbacks, hn, hexp]
  · intro config hno heq
    unfold setCallbacks at heq
    cases hn : normalizationCallbacks config.normalizationMethod with
    | error e =>
      rw [hn] at heq
      obtain ⟨s, rfl⟩ := normalizationCallbacks_error_shape _ _ hn
      simp at heq
    | ok l =>
      rw [hn] at heq
      cases he : exportCallbacks config with
      | error e2 =>
        rw [he] at heq
        obtain ⟨p, rfl⟩ := exportCallbacks_error_shape _ _ hno he
        simp at heq
      | ok l2 =>
        rw [he] at heq
        simp at heq

/-- Witness for C6: both export options set yields a ValueError; with
the OpenVINO flag cleared on the same configuration, the simultaneity
error cannot be the outcome. -/
theorem C6_openvino_nncf_exclusive_witness :
    (∃ p, setCallbacks
      { trainerCallbacks := none, resumeFromCheckpoint := none,
        normalizationMethod := some "min_max", openvino := true,
        nncf := some "compress.yaml", nncfIsFile := true } = .error (.valueError p)) ∧
    setCallbacks
      { trainerCallbacks := none, resumeFromCheckpoint := none,
        normalizationMethod := some "min_max", openvino := false,
        nncf := some "compress.yaml", nncfIsFile := true } ≠
      .error (.valueError .openvinoNncfSimultaneous) :=
  ⟨C6_openvino_nncf_exclusive.1 _ rfl rfl,
   C6_openvino_nncf_exclusive.2 _ (by simp)⟩

/-- C7: in every successfully assembled pipeline the min-max callback
appears exactly when the configured normalization method is min_max and
the CDF callback exactly when it is cdf (in particular neither appears
when the method is none or empty), and every other truthy method makes
the assembly fail with a ValueError naming that method. -/
theorem C7_normalization_method_selection :
    (∀ (config : CLIConfig) (cbs : List Callback), setCallbacks config = .ok cbs →
      ((Callback.minMaxNormalization ∈ cbs ↔ config.normalizationMethod = some "min_max") ∧
       (Callback.cdfNormalization ∈ cbs ↔ config.normalizationMethod = some "cdf"))) ∧
    (∀ (config : CLIConfig) (m : String), config.normalizationMethod = some m →
      m ≠ "" → m ≠ "min_max" → m ≠ "cdf" →
      setCallbacks config = .error (.valueError (.unknownNormalizationType m))) := by
  constructor
  · intro config cbs hcbs
    unfold setCallbacks at hcbs
    cases hn : normalizationCallbacks config.normalizationMethod with
    | error e => rw [hn] at hcbs; simp at hcbs
    | ok l =>
      rw [hn] at hcbs
      cases he : exportCallbacks config with
      | error e2 => rw [he] at hcbs; simp at hcbs
      | ok l2 =>
        rw [he] at hcbs
        simp only [Except.ok.injEq] at hcbs
        subst hcbs
        have hbase := norm_not_mem_baseCallbacks config
        have hiff := normalizationCallbacks_ok_iff _ _ hn
        constructor
        · rw [← hiff.1]
          simp only [List.mem_append]
          constructor
          · rintro ((h | h) | h)
            · exact absurd h hbase.1
            · exact h
            · rcases exportCallbacks_mem_shape _ _ he _ h with h | ⟨p, h⟩ <;> simp at h
          · exact fun h => .inl (.inr h)
        · rw [← hiff.2]
          simp only [List.mem_append]
          constructor
          · rintro ((h | h) | h)
            · exact absurd h hbase.2
            · exact h
            · rcases exportCallbacks_mem_shape _ _ he _ h with h | ⟨p, h⟩ <;> simp at h
          · exact fun h => .inl (.inr h)
  · intro config m hm h1 h2 h3
    have hn : normalizationCallbacks config.normalizationMethod =
        .error (.valueError (.unknownNormalizationType m)) := by
      rw [hm]
      simp [normalizationCallbacks, pyTruthy, h1, h2, h3]
    simp [setCallbacks, hn]

/-- Witness for C7: the default min_max configuration assembles a
pipeline containing the min-max callback and no CDF callback, and a
bogus method makes assembly fail naming that method. -/
theorem C7_normalization_method_selection_witness :
    ((Callback.minMaxNormalization ∈
        [Callback.modelCheckpoint none "max", Callback.timer, Callback.minMaxNormalization] ↔
      (some "min_max" : Option String) = some "min_max") ∧
     (Callback.cdfNormalization ∈
        [Callback.modelCheckpoint none "max", Callback.timer, Callback.minMaxNormalization] ↔
      (some "min_max" : Option String) = some "cdf")) ∧
    setCallbacks
      { trainerCallbacks := none, resumeFromCheckpoint := none,
        normalizationMethod := some "bogus", openvino := false,
        nncf := none, nncfIsFile := false } =
      .error (.valueError (.unknownNormalizationType "bogus")) :=
  ⟨C7_normalization_method_selection.1
      { trainerCallbacks := none, resumeFromCheckpoint := none,
        normalizationMethod := some "min_max", openvino := false,
        nncf := none, nncfIsFile := false } _ rfl,
   C7_normalization_method_selection.2 _ "bogus" rfl
      (by decide) (by decide) (by decide)⟩

end Anomalib
